import Mathlib

/-!
Formal model of the DataQuality quality-scoring and duplicate-detection engine.

The repository ships the React frontend (under `src/`); the FastAPI backend that
implements the scoring engine (`backend/app/services/metadata.py`,
`backend/app/services/bedrock.py` per the README) is not part of the source
tree.  Definitions for the engine are therefore modelled from the spec
(spec.md sections 3, 4 and 7, cross-checked against README.md "Duplicate
Detection Logic"), while the frontend pieces (`getScoreColor`,
`getActionColor`, duplicate badge colours, `handleScan` persistence) are
embedded directly from the JSX sources.
-/

namespace DataQuality

/-- A raw score together with its supporting evidence string, one per quality
dimension. -/
structure DimensionScore where
  score : Nat
  evidence : String
deriving DecidableEq

/-- Number of standardized quality dimensions. -/
def numDimensions : Nat := 17

/-- Modelled from the spec: the 17 fixed dimension names of the Quality
Dimension Scorer.  The spec fixes only the count (17) and that a timeliness
dimension is among them; the remaining sixteen names are opaque placeholders
since the rubric is externally supplied. -/
def dimensionNames : List String :=
  ["timeliness", "dim_01", "dim_02", "dim_03", "dim_04", "dim_05", "dim_06",
   "dim_07", "dim_08", "dim_09", "dim_10", "dim_11", "dim_12", "dim_13",
   "dim_14", "dim_15", "dim_16"]

/-- Modelled from the spec: each of the 17 dimensions is scored independently
from its associated evidence signal (an opaque upstream-supplied raw 0-100
score plus evidence string, clamped to the bound here); a dimension whose
input is missing scores 0 with evidence "no evidence provided" and is never
skipped. -/
def scoreDimensions (inputs : List (String × Nat × String)) :
    List (String × DimensionScore) :=
  dimensionNames.map (fun name =>
    match inputs.find? (fun p => p.1 == name) with
    | some p => (name, ⟨min p.2.1 100, p.2.2⟩)
    | none => (name, ⟨0, "no evidence provided"⟩))

/-- Modelled from the spec: the timeliness decay curve is a tunable that must
be monotonically decreasing in the document's age and bounded to [0,100]; this
instance deducts one point per 30 age units. -/
def timelinessPenalty (age : Nat) : Nat := age / 30

/-- Modelled from the spec: the timeliness dimension is adjusted downward by
the document's age (now minus upload timestamp); other dimensions are left
untouched. -/
def adjustTimeliness (age : Nat) (entries : List (String × DimensionScore)) :
    List (String × DimensionScore) :=
  entries.map (fun e =>
    if e.1 = "timeliness" then (e.1, ⟨e.2.score - timelinessPenalty age, e.2.evidence⟩)
    else e)

/-- Sum of the dimension scores of a scored-dimension list. -/
def sumScores (entries : List (String × DimensionScore)) : Nat :=
  (entries.map (fun e => e.2.score)).sum

/-- Nearest-integer rounding of `s / n` over the naturals (for odd `n` the
tie case cannot occur, so this is the unique nearest integer). -/
def roundMean (s n : Nat) : Nat := (2 * s + n) / (2 * n)

/-- Modelled from the spec: the recommended disposition is derived by
thresholds on the overall score (>= 90 KEEP, 70-89 REVIEW, 50-69 QUARANTINE,
below 50 DISCARD). -/
def recommendedAction (score : Nat) : String :=
  if 90 ≤ score then "KEEP"
  else if 70 ≤ score then "REVIEW"
  else if 50 ≤ score then "QUARANTINE"
  else "DISCARD"

/-- Per-document quality result: the 17 named dimension scores, the overall
score and the disposition. -/
structure QualityResult where
  dimension_scores : List (String × DimensionScore)
  overall_quality_score : Nat
  recommended_action : String
deriving DecidableEq

/-- One analyzed document (spec section 3).  The metadata-set mapping is
flattened to the two fields the engine reads (topics and key terms); vector
entries are rationals, which is what JSON-serialized embedding floats are. -/
structure DocumentAnalysis where
  file_key : String
  document_type : String
  topics : List String
  key_terms : List String
  full_embedding : Option (List ℚ)
  summary_embedding : Option (List ℚ)
  raw_text_tokens : List String
  upload_timestamp : Nat
  dimension_inputs : List (String × Nat × String)
deriving DecidableEq

/-- Modelled from the spec: the Quality Dimension Scorer, composing the
per-dimension rubric, the timeliness adjustment and the rounded-mean overall
score with its disposition. -/
def scoreDocument (now : Nat) (d : DocumentAnalysis) : QualityResult :=
  let qr := adjustTimeliness (now - d.upload_timestamp) (scoreDimensions d.dimension_inputs)
  let overall := roundMean (sumScores qr) numDimensions
  ⟨qr, overall, recommendedAction overall⟩

/-- Embedded from src/src/components/DimensionScoreCard.jsx lines 103-108
(`getScoreColor`): score colour buckets of the frontend. -/
def getScoreColor (score : Nat) : String :=
  if 90 ≤ score then "#10b981"
  else if 70 ≤ score then "#f59e0b"
  else if 50 ≤ score then "#f97316"
  else "#ef4444"

/-- Embedded from src/src/components/DimensionScoreCard.jsx lines 111-119
(`getActionColor`): action badge colours of the frontend. -/
def getActionColor (action : String) : String :=
  if action = "KEEP" then "#10b981"
  else if action = "REVIEW" then "#f59e0b"
  else if action = "QUARANTINE" then "#f97316"
  else if action = "DISCARD" then "#ef4444"
  else "#6b7280"

/-- The combined topics-plus-key-terms metadata set of one document. -/
def combinedMetadataSet (d : DocumentAnalysis) : Finset String :=
  d.topics.toFinset ∪ d.key_terms.toFinset

/-- Modelled from the spec: Jaccard similarity of two string sets.  `mkRat`
maps a zero denominator to 0, which is exactly the spec's
"empty-set vs empty-set is defined as similarity 0" rule. -/
def jaccard (a b : Finset String) : ℚ :=
  mkRat ((a ∩ b).card : Int) ((a ∪ b).card)

/-- Modelled from the spec: the Metadata Similarity Gate value.  A
case-sensitive mismatch of the document types forces the failing value 0;
otherwise the value is the Jaccard similarity of the combined
topics-plus-key-terms sets. -/
def metadataSimilarity (d1 d2 : DocumentAnalysis) : ℚ :=
  if d1.document_type = d2.document_type then
    jaccard (combinedMetadataSet d1) (combinedMetadataSet d2)
  else 0

/-- Gate admission threshold (0.7). -/
def gateThreshold : ℚ := mkRat 7 10

/-- Modelled from the spec: a pair is admitted to vector comparison iff its
metadata similarity reaches the 0.7 gate threshold. -/
def gateAdmits (d1 d2 : DocumentAnalysis) : Bool :=
  gateThreshold ≤ metadataSimilarity d1 d2

/-- Modelled from the spec: term-frequency vector of a token list over a fixed
vocabulary index. -/
def bowVector (vocab : List String) (tokens : List String) : List ℚ :=
  vocab.map (fun w => (tokens.count w : ℚ))

/-- Modelled from the spec: the pair-specific shared vocabulary for the
bag-of-words fallback, built across both documents' token lists with one
stable index per term (the top-token/stopword selection of the tunable
vocabulary builder is abstracted as the deduplicated union). -/
def pairVocabulary (d1 d2 : DocumentAnalysis) : List String :=
  (d1.raw_text_tokens ++ d2.raw_text_tokens).dedup

/-- Modelled from the spec: the Vectorizer Fallback Builder strategy chain -
use `full_embedding` if present, else `summary_embedding`, else the
bag-of-words vector from `raw_text_tokens` over the supplied vocabulary. -/
def resolveVector (vocab : List String) (d : DocumentAnalysis) : List ℚ :=
  match d.full_embedding with
  | some v => v
  | none =>
    match d.summary_embedding with
    | some v => v
    | none => bowVector vocab d.raw_text_tokens

/-- Modelled from the spec: resolve the two comparison vectors of a pair.
When both documents' token sets are empty the similarity is undefined and the
pair is dropped (`none`) rather than reported as 0. -/
def resolveComparison (d1 d2 : DocumentAnalysis) :
    Option (List ℚ × List ℚ) :=
  if d1.raw_text_tokens = [] ∧ d2.raw_text_tokens = [] then none
  else
    some (resolveVector (pairVocabulary d1 d2) d1,
          resolveVector (pairVocabulary d1 d2) d2)

/-- Clamp a rational similarity value into [0,1]. -/
def clamp01 (q : ℚ) : ℚ := max 0 (min 1 q)

/-- One derived similarity pair (spec section 3). -/
structure SimilarityPair where
  file_1 : String
  file_2 : String
  metadata_similarity : ℚ
  similarity : ℚ
deriving DecidableEq

/-- Modelled from the spec: gate one candidate pair.  Pairs below the metadata
gate, and pairs dropped by the fallback failure mode, produce no
`SimilarityPair`; admitted pairs carry the clamped vector similarity computed
by the kernel `vecSim` (the cosine of spec section 4.3, kept abstract here so
that the pipeline invariants hold for every kernel). -/
def mkPair (vecSim : List ℚ → List ℚ → ℚ) (d1 d2 : DocumentAnalysis) :
    Option SimilarityPair :=
  let m := metadataSimilarity d1 d2
  if gateThreshold ≤ m then
    match resolveComparison d1 d2 with
    | some (v1, v2) => some ⟨d1.file_key, d2.file_key, m, clamp01 (vecSim v1 v2)⟩
    | none => none
  else none

/-- All unordered pairs of a list, first component earlier in the list,
enumerated in first-seen order. -/
def allPairs {α : Type} : List α → List (α × α)
  | [] => []
  | x :: xs => xs.map (fun y => (x, y)) ++ allPairs xs

/-- Modelled from the spec: the canonical pair list of a run - every unordered
pair of analyzed documents, gated and resolved, in first-seen order. -/
def buildPairs (vecSim : List ℚ → List ℚ → ℚ) (docs : List DocumentAnalysis) :
    List SimilarityPair :=
  (allPairs docs).filterMap (fun p => mkPair vecSim p.1 p.2)

/-- One per-document entry of a run, successful or failed (spec sections 3
and 7). -/
structure FileEntry where
  file_key : String
  status : String
  error : Option String
  doc : Option DocumentAnalysis
  quality : Option QualityResult
deriving DecidableEq

/-- Modelled from the spec: per-document processing.  A failed analysis call
is demoted to a per-document error entry carrying its message and no
embeddings; a successful one carries the analysis and its quality result. -/
def processDocument (now : Nat) (key : String)
    (outcome : Except String DocumentAnalysis) : FileEntry :=
  match outcome with
  | .error msg => ⟨key, "error", some msg, none, none⟩
  | .ok d => ⟨key, "success", none, some { d with file_key := key },
              some (scoreDocument now d)⟩

/-- Duplicate threshold (0.95). -/
def duplicateThreshold : ℚ := mkRat 19 20

/-- Whether a pair touches the given file key as either endpoint. -/
def touches (p : SimilarityPair) (key : String) : Bool :=
  p.file_1 == key || p.file_2 == key

/-- Whether a pair is at or above the duplicate threshold. -/
def isDuplicatePair (p : SimilarityPair) : Bool :=
  duplicateThreshold ≤ p.similarity

/-- One per-document output of the consolidated result. -/
structure FileOutput where
  file : FileEntry
  potential_duplicates : List SimilarityPair
  similarity_pairs : List SimilarityPair
deriving DecidableEq

/-- The immutable per-run result object (spec section 3). -/
structure ConsolidatedResult where
  files : List FileOutput
  duplicate_pairs : List SimilarityPair
  similarity_pairs : List SimilarityPair
deriving DecidableEq

/-- Modelled from the spec: the run-level pair list is sorted by similarity
descending (stable, so similarity ties keep first-seen order). -/
def sortBySimilarity (pairs : List SimilarityPair) : List SimilarityPair :=
  pairs.mergeSort (fun p q => decide (q.similarity ≤ p.similarity))

/-- Modelled from the spec: the Result Consolidator.  Both run-level lists and
both per-file lists are filtered views over the one canonical pair list:
every pair touching a file appears in that file's `similarity_pairs`, only
pairs at or above the duplicate threshold appear in `potential_duplicates`
and in the run-level `duplicate_pairs`. -/
def consolidate (entries : List FileEntry) (pairs : List SimilarityPair) :
    ConsolidatedResult :=
  { files := entries.map (fun e =>
      { file := e
        potential_duplicates :=
          pairs.filter (fun p => touches p e.file_key && isDuplicatePair p)
        similarity_pairs := pairs.filter (fun p => touches p e.file_key) })
    duplicate_pairs := pairs.filter isDuplicatePair
    similarity_pairs := sortBySimilarity pairs }

/-- The analyses of the successfully processed documents of a run. -/
def successDocs (entries : List FileEntry) : List DocumentAnalysis :=
  entries.filterMap (fun e => e.doc)

/-- Modelled from the spec: a whole run - per-document processing (errors
demoted, never run-fatal), pair construction over the successful documents
only, then consolidation.  `vecSim` is the vector-similarity kernel,
`now` the scoring clock, `inputs` the document keys with their analysis-call
outcomes. -/
def runPipeline (vecSim : List ℚ → List ℚ → ℚ) (now : Nat)
    (inputs : List (String × Except String DocumentAnalysis)) :
    ConsolidatedResult :=
  let entries := inputs.map (fun p => processDocument now p.1 p.2)
  consolidate entries (buildPairs vecSim (successDocs entries))

/-- Dot product of two real vectors (spec section 4.3). -/
noncomputable def dot (u v : List ℝ) : ℝ :=
  (List.zipWith (fun a b => a * b) u v).sum

/-- Euclidean norm of a real vector. -/
noncomputable def vnorm (v : List ℝ) : ℝ := Real.sqrt (dot v v)

/-- Modelled from the spec: raw cosine similarity of the Pairwise Similarity
Engine, `dot(u,v) / (norm u * norm v)`. -/
noncomputable def cosineSimilarity (u v : List ℝ) : ℝ :=
  dot u v / (vnorm u * vnorm v)

/-- Modelled from the spec: the reported similarity is the raw cosine clamped
to [0,1] rather than an error. -/
noncomputable def clampedCosine (u v : List ℝ) : ℝ :=
  max 0 (min 1 (cosineSimilarity u v))

/-- Similarity tiers of the downstream classification. -/
inductive Tier where
  | similar
  | duplicate
  | verySimilar
  | nearIdentical
deriving DecidableEq

/-- Modelled from the spec: downstream tier classification of a reported
similarity - below 0.95 similar-but-not-duplicate, then duplicate, very
similar duplicate from 0.97, near-identical from 0.99. -/
def classifyTier (s : ℚ) : Tier :=
  if mkRat 99 100 ≤ s then Tier.nearIdentical
  else if mkRat 97 100 ≤ s then Tier.verySimilar
  else if duplicateThreshold ≤ s then Tier.duplicate
  else Tier.similar

/-- Embedded from src/unnamed/part_007 lines 253-265 (MetadataResultsTable
duplicate badges): badge colour of a reported duplicate, on the 0-100 percent
scale used by the UI. -/
def duplicateBadgeColor (percent : ℚ) : String :=
  if 99 ≤ percent then "#dc2626"
  else if 97 ≤ percent then "#ea580c"
  else "#f59e0b"

/-- One element of the quality-check response's `results` array, as read by
the frontend run handler. -/
structure ScanResultItem where
  consolidated_json : Option ConsolidatedResult
deriving DecidableEq

/-- Outcome of the quality-check request as seen by the frontend run handler:
either the request threw, or it returned a `results` array. -/
inductive ScanOutcome where
  | thrown (msg : String)
  | ok (results : List ScanResultItem)
deriving DecidableEq

/-- The persistence-relevant frontend state around one scan: the localStorage
value under the `qualityCheckResults_{id}` key, the in-memory display state
and the error banner. -/
structure ScanView where
  storedResults : Option ConsolidatedResult
  displayed : Option ConsolidatedResult
  errorMsg : Option String
deriving DecidableEq

/-- Embedded from src/unnamed/part_004 lines 144-201 (`handleScan` in
SourceDetails): the handler first clears the in-memory display state and the
error banner, then writes the localStorage key only when the response's first
result carries a `consolidated_json` object; on a thrown request or a
response without one, only the error banner is set and the stored value is
left untouched. -/
def handleScan (prev : ScanView) (resp : ScanOutcome) : ScanView :=
  let cleared : ScanView := { prev with displayed := none, errorMsg := none }
  match resp with
  | .thrown msg =>
    { cleared with errorMsg := some ("Failed to run quality check: " ++ msg) }
  | .ok results =>
    match results with
    | [] =>
      { cleared with
        errorMsg := some "Quality check completed but returned no results." }
    | item :: _ =>
      match item.consolidated_json with
      | some c => { cleared with displayed := some c, storedResults := some c }
      | none => cleared

/-! Helper lemmas about the Quality Dimension Scorer. -/

lemma dimensionNames_length : dimensionNames.length = numDimensions := rfl

lemma scoreDimensions_length (inputs : List (String × Nat × String)) :
    (scoreDimensions inputs).length = numDimensions := by
  simp [scoreDimensions, dimensionNames_length]

lemma adjustTimeliness_length (age : Nat) (entries : List (String × DimensionScore)) :
    (adjustTimeliness age entries).length = entries.length := by
  simp [adjustTimeliness]

lemma scoreDimensions_score_le (inputs : List (String × Nat × String)) :
    ∀ e ∈ scoreDimensions inputs, e.2.score ≤ 100 := by
  intro e he
  simp only [scoreDimensions, List.mem_map] at he
  obtain ⟨name, -, rfl⟩ := he
  cases h : inputs.find? (fun p => p.1 == name) with
  | none => simp [h]
  | some p => simp [h, Nat.min_le_right]

lemma adjustTimeliness_score_le (age : Nat) (entries : List (String × DimensionScore))
    (h : ∀ e ∈ entries, e.2.score ≤ 100) :
    ∀ e ∈ adjustTimeliness age entries, e.2.score ≤ 100 := by
  intro e he
  simp only [adjustTimeliness, List.mem_map] at he
  obtain ⟨f, hf, rfl⟩ := he
  by_cases hn : f.1 = "timeliness"
  · simpa [hn] using le_trans (Nat.sub_le _ _) (h f hf)
  · simpa [hn] using h f hf

lemma scoreDimensions_names (inputs : List (String × Nat × String)) :
    (scoreDimensions inputs).map Prod.fst = dimensionNames := by
  rw [scoreDimensions, List.map_map]
  apply List.map_id''
  intro name
  cases h : inputs.find? (fun p => p.1 == name) <;> simp [h]

lemma adjustTimeliness_names (age : Nat) (entries : List (String × DimensionScore)) :
    (adjustTimeliness age entries).map Prod.fst = entries.map Prod.fst := by
  rw [adjustTimeliness, List.map_map]
  apply List.map_congr_left
  intro e _
  by_cases hn : e.1 = "timeliness" <;> simp [hn]

lemma scoreDimensions_missing (inputs : List (String × Nat × String)) (name : String)
    (hmem : name ∈ dimensionNames)
    (hmiss : ∀ x ∈ inputs, x.1 ≠ name) :
    (name, (⟨0, "no evidence provided"⟩ : DimensionScore)) ∈ scoreDimensions inputs := by
  have hfind : inputs.find? (fun p => p.1 == name) = none := by
    apply List.find?_eq_none.2
    intro x hx
    simpa using hmiss x hx
  simp only [scoreDimensions, List.mem_map]
  exact ⟨name, hmem, by rw [hfind]⟩

lemma adjustTimeliness_missing (age : Nat) (entries : List (String × DimensionScore))
    (name : String)
    (h : (name, (⟨0, "no evidence provided"⟩ : DimensionScore)) ∈ entries) :
    (name, (⟨0, "no evidence provided"⟩ : DimensionScore)) ∈ adjustTimeliness age entries := by
  simp only [adjustTimeliness, List.mem_map]
  refine ⟨_, h, ?_⟩
  by_cases hn : name = "timeliness" <;> simp [hn]

lemma roundMean_eq_round (s : Nat) :
    (roundMean s numDimensions : ℤ) = round ((s : ℚ) / (numDimensions : ℚ)) := by
  have hnum : ((numDimensions : Nat) : ℚ) = (17 : ℚ) := by norm_num [numDimensions]
  rw [hnum, round_eq]
  have h1 : (s : ℚ) / 17 + 1 / 2 = ((2 * s + 17 : ℕ) : ℚ) / ((34 : ℕ) : ℚ) := by
    push_cast
    field_simp
    ring
  rw [h1, Rat.floor_natCast_div_natCast]
  have h2 : roundMean s numDimensions = (2 * s + 17) / 34 := by
    simp [roundMean, numDimensions]
  rw [h2]
  exact Int.natCast_div _ _

lemma scoreDocument_dimension_scores (now : Nat) (d : DocumentAnalysis) :
    (scoreDocument now d).dimension_scores =
      adjustTimeliness (now - d.upload_timestamp) (scoreDimensions d.dimension_inputs) := rfl

lemma scoreDocument_overall (now : Nat) (d : DocumentAnalysis) :
    (scoreDocument now d).overall_quality_score =
      roundMean (sumScores (scoreDocument now d).dimension_scores) numDimensions := rfl

lemma scoreDocument_action (now : Nat) (d : DocumentAnalysis) :
    (scoreDocument now d).recommended_action =
      recommendedAction (scoreDocument now d).overall_quality_score := rfl

/-! Helper lemmas about the Metadata Similarity Gate. -/

lemma gateThreshold_pos : (0 : ℚ) < gateThreshold := by decide

lemma metadataSimilarity_of_type_ne (d1 d2 : DocumentAnalysis)
    (h : d1.document_type ≠ d2.document_type) :
    metadataSimilarity d1 d2 = 0 := by
  simp [metadataSimilarity, h]

lemma type_eq_of_gate {d1 d2 : DocumentAnalysis}
    (h : gateThreshold ≤ metadataSimilarity d1 d2) :
    d1.document_type = d2.document_type := by
  by_contra hne
  rw [metadataSimilarity_of_type_ne d1 d2 hne] at h
  exact absurd h (not_le.2 gateThreshold_pos)

lemma jaccard_eq_div (a b : Finset String) :
    jaccard a b = ((a ∩ b).card : ℚ) / ((a ∪ b).card : ℚ) := by
  rw [jaccard, Rat.mkRat_eq_divInt, Rat.divInt_eq_div]
  push_cast
  ring

/-! Helper lemmas about pair enumeration and gating. -/

/-- Two similarity pairs report the same unordered endpoint set. -/
def sameEndpoints (p q : SimilarityPair) : Prop :=
  (p.file_1 = q.file_1 ∧ p.file_2 = q.file_2) ∨
  (p.file_1 = q.file_2 ∧ p.file_2 = q.file_1)

lemma not_sameEndpoints_symm : Symmetric (fun p q => ¬ sameEndpoints p q) := by
  intro p q h hq
  apply h
  rcases hq with ⟨h1, h2⟩ | ⟨h1, h2⟩
  · exact Or.inl ⟨h1.symm, h2.symm⟩
  · exact Or.inr ⟨h2.symm, h1.symm⟩

lemma mem_allPairs {α : Type} {p : α × α} :
    ∀ {l : List α}, p ∈ allPairs l → p.1 ∈ l ∧ p.2 ∈ l := by
  intro l
  induction l with
  | nil => intro hp; simp [allPairs] at hp
  | cons x xs ih =>
    intro hp
    simp only [allPairs, List.mem_append, List.mem_map] at hp
    rcases hp with ⟨y, hy, rfl⟩ | hp
    · exact ⟨List.mem_cons_self _ _, List.mem_cons_of_mem _ hy⟩
    · obtain ⟨h1, h2⟩ := ih hp
      exact ⟨List.mem_cons_of_mem _ h1, List.mem_cons_of_mem _ h2⟩

lemma allPairs_fst_ne_snd {α : Type} (f : α → String) :
    ∀ {l : List α}, l.Pairwise (fun a b => f a ≠ f b) →
      ∀ p ∈ allPairs l, f p.1 ≠ f p.2 := by
  intro l
  induction l with
  | nil => intro _ p hp; simp [allPairs] at hp
  | cons x xs ih =>
    intro hl p hp
    rw [List.pairwise_cons] at hl
    simp only [allPairs, List.mem_append, List.mem_map] at hp
    rcases hp with ⟨y, hy, rfl⟩ | hp
    · exact hl.1 y hy
    · exact ih hl.2 p hp

lemma allPairs_pairwise_ne {α : Type} (f : α → String) :
    ∀ {l : List α}, l.Pairwise (fun a b => f a ≠ f b) →
      (allPairs l).Pairwise (fun p q =>
        ¬ ((f p.1 = f q.1 ∧ f p.2 = f q.2) ∨
           (f p.1 = f q.2 ∧ f p.2 = f q.1))) := by
  intro l
  induction l with
  | nil => intro _; simp [allPairs]
  | cons x xs ih =>
    intro hl
    rw [List.pairwise_cons] at hl
    rw [allPairs, List.pairwise_append]
    refine ⟨?_, ih hl.2, ?_⟩
    · rw [List.pairwise_map]
      apply List.Pairwise.imp_of_mem ?_ hl.2
      intro y y' hy hy' hne hcon
      rcases hcon with ⟨-, h2⟩ | ⟨h1, -⟩
      · exact hne h2
      · exact hl.1 y' hy' h1
    · intro a ha b hb
      simp only [List.mem_map] at ha
      obtain ⟨y, hy, rfl⟩ := ha
      obtain ⟨hb1, hb2⟩ := mem_allPairs hb
      intro hcon
      rcases hcon with ⟨h1, -⟩ | ⟨h1, -⟩
      · exact hl.1 b.1 hb1 h1
      · exact hl.1 b.2 hb2 h1

lemma mkPair_eq_some {vecSim : List ℚ → List ℚ → ℚ} {d1 d2 : DocumentAnalysis}
    {p : SimilarityPair} (h : mkPair vecSim d1 d2 = some p) :
    p.file_1 = d1.file_key ∧ p.file_2 = d2.file_key ∧
    p.metadata_similarity = metadataSimilarity d1 d2 ∧
    gateThreshold ≤ p.metadata_similarity ∧
    ∃ v1 v2, resolveComparison d1 d2 = some (v1, v2) ∧
      p.similarity = clamp01 (vecSim v1 v2) := by
  by_cases hgate : gateThreshold ≤ metadataSimilarity d1 d2
  · cases hrc : resolveComparison d1 d2 with
    | none =>
      have hnone : mkPair vecSim d1 d2 = none := by simp [mkPair, hgate, hrc]
      rw [hnone] at h
      exact absurd h (by simp)
    | some vv =>
      obtain ⟨v1, v2⟩ := vv
      have hm : mkPair vecSim d1 d2 =
          some ⟨d1.file_key, d2.file_key, metadataSimilarity d1 d2,
                clamp01 (vecSim v1 v2)⟩ := by
        simp [mkPair, hgate, hrc]
      rw [hm] at h
      simp only [Option.some.injEq] at h
      subst h
      exact ⟨rfl, rfl, rfl, hgate, v1, v2, rfl, rfl⟩
  · exact absurd h (by simp [mkPair, hgate])

lemma mem_buildPairs {vecSim : List ℚ → List ℚ → ℚ} {docs : List DocumentAnalysis}
    {p : SimilarityPair} :
    p ∈ buildPairs vecSim docs ↔
      ∃ q ∈ allPairs docs, mkPair vecSim q.1 q.2 = some p := by
  simp [buildPairs, List.mem_filterMap]

lemma buildPairs_fst_ne_snd (vecSim : List ℚ → List ℚ → ℚ)
    {docs : List DocumentAnalysis}
    (h : docs.Pairwise (fun a b => a.file_key ≠ b.file_key)) :
    ∀ p ∈ buildPairs vecSim docs, p.file_1 ≠ p.file_2 := by
  intro p hp
  obtain ⟨q, hq, hmk⟩ := mem_buildPairs.1 hp
  obtain ⟨h1, h2, -⟩ := mkPair_eq_some hmk
  rw [h1, h2]
  exact allPairs_fst_ne_snd (fun d => d.file_key) h q hq

lemma buildPairs_pairwise (vecSim : List ℚ → List ℚ → ℚ)
    {docs : List DocumentAnalysis}
    (h : docs.Pairwise (fun a b => a.file_key ≠ b.file_key)) :
    (buildPairs vecSim docs).Pairwise (fun p q => ¬ sameEndpoints p q) := by
  rw [buildPairs]
  apply List.pairwise_filterMap.2
  apply List.Pairwise.imp_of_mem ?_ (allPairs_pairwise_ne (fun d => d.file_key) h)
  intro a b _ _ hab p hpa q hqb
  simp only [Option.mem_def] at hpa hqb
  obtain ⟨ha1, ha2, -⟩ := mkPair_eq_some hpa
  obtain ⟨hb1, hb2, -⟩ := mkPair_eq_some hqb
  intro hcon
  apply hab
  rcases hcon with ⟨h1, h2⟩ | ⟨h1, h2⟩
  · exact Or.inl ⟨(ha1.symm.trans h1).trans hb1, (ha2.symm.trans h2).trans hb2⟩
  · exact Or.inr ⟨(ha1.symm.trans h1).trans hb2, (ha2.symm.trans h2).trans hb1⟩

/-! Helper lemmas about per-document processing and the consolidator. -/

lemma processDocument_file_key (now : Nat) (key : String)
    (outcome : Except String DocumentAnalysis) :
    (processDocument now key outcome).file_key = key := by
  cases outcome <;> rfl

lemma processDocument_doc_some {now : Nat} {key : String}
    {outcome : Except String DocumentAnalysis} {d : DocumentAnalysis}
    (h : (processDocument now key outcome).doc = some d) :
    d.file_key = key ∧ (processDocument now key outcome).status = "success" := by
  cases outcome with
  | error msg => exact absurd h (by simp [processDocument])
  | ok a =>
    simp only [processDocument, Option.some.injEq] at h
    subst h
    exact ⟨rfl, rfl⟩

lemma processDocument_error {now : Nat} {key msg : String} :
    processDocument now key (Except.error msg) =
      ⟨key, "error", some msg, none, none⟩ := rfl

lemma processDocument_status {now : Nat} {key : String}
    {outcome : Except String DocumentAnalysis} :
    (processDocument now key outcome).status = "success" ∨
    (processDocument now key outcome).status = "error" := by
  cases outcome with
  | error msg => exact Or.inr rfl
  | ok a => exact Or.inl rfl

lemma successDocs_key_sublist :
    ∀ (l : List FileEntry),
      (∀ e ∈ l, ∀ d, e.doc = some d → d.file_key = e.file_key) →
      ((successDocs l).map (fun d => d.file_key)).Sublist
        (l.map (fun e => e.file_key)) := by
  intro l
  induction l with
  | nil => intro _; simp [successDocs]
  | cons e l ih =>
    intro h
    have htail := ih (fun e' he' => h e' (List.mem_cons_of_mem _ he'))
    rw [successDocs, List.filterMap_cons]
    cases hd : e.doc with
    | none =>
      simp only [List.map_cons]
      exact (htail).cons _
    | some d =>
      simp only [List.map_cons]
      rw [h e (List.mem_cons_self _ _) d hd]
      exact (htail).cons₂ _

lemma mem_successDocs {l : List FileEntry} {d : DocumentAnalysis} :
    d ∈ successDocs l ↔ ∃ e ∈ l, e.doc = some d := by
  simp [successDocs, List.mem_filterMap]

lemma consolidate_duplicate_pairs (entries : List FileEntry)
    (pairs : List SimilarityPair) :
    (consolidate entries pairs).duplicate_pairs = pairs.filter isDuplicatePair := rfl

lemma consolidate_similarity_perm (entries : List FileEntry)
    (pairs : List SimilarityPair) :
    List.Perm (consolidate entries pairs).similarity_pairs pairs :=
  List.mergeSort_perm pairs _

lemma mem_consolidate_similarity {entries : List FileEntry}
    {pairs : List SimilarityPair} {p : SimilarityPair} :
    p ∈ (consolidate entries pairs).similarity_pairs ↔ p ∈ pairs :=
  (consolidate_similarity_perm entries pairs).mem_iff

lemma consolidate_files (entries : List FileEntry) (pairs : List SimilarityPair) :
    (consolidate entries pairs).files = entries.map (fun e =>
      { file := e
        potential_duplicates :=
          pairs.filter (fun p => touches p e.file_key && isDuplicatePair p)
        similarity_pairs := pairs.filter (fun p => touches p e.file_key) }) := rfl

/-- The entry list of a run. -/
def runEntries (now : Nat)
    (inputs : List (String × Except String DocumentAnalysis)) : List FileEntry :=
  inputs.map (fun p => processDocument now p.1 p.2)

lemma runPipeline_eq (vecSim : List ℚ → List ℚ → ℚ) (now : Nat)
    (inputs : List (String × Except String DocumentAnalysis)) :
    runPipeline vecSim now inputs =
      consolidate (runEntries now inputs)
        (buildPairs vecSim (successDocs (runEntries now inputs))) := rfl

lemma runEntries_keys (now : Nat)
    (inputs : List (String × Except String DocumentAnalysis)) :
    (runEntries now inputs).map (fun e => e.file_key) = inputs.map Prod.fst := by
  rw [runEntries, List.map_map]
  apply List.map_congr_left
  intro p _
  exact processDocument_file_key now p.1 p.2

lemma runEntries_doc_key {now : Nat}
    {inputs : List (String × Except String DocumentAnalysis)} :
    ∀ e ∈ runEntries now inputs, ∀ d, e.doc = some d → d.file_key = e.file_key := by
  intro e he d hd
  simp only [runEntries, List.mem_map] at he
  obtain ⟨q, -, rfl⟩ := he
  rw [processDocument_file_key]
  exact (processDocument_doc_some hd).1

lemma runEntries_doc_status {now : Nat}
    {inputs : List (String × Except String DocumentAnalysis)} :
    ∀ e ∈ runEntries now inputs, ∀ d, e.doc = some d → e.status = "success" := by
  intro e he d hd
  simp only [runEntries, List.mem_map] at he
  obtain ⟨q, -, rfl⟩ := he
  exact (processDocument_doc_some hd).2

lemma runEntries_key_nodup (now : Nat)
    {inputs : List (String × Except String DocumentAnalysis)}
    (h : (inputs.map Prod.fst).Nodup) :
    ((runEntries now inputs).map (fun e => e.file_key)).Nodup := by
  rw [runEntries_keys]
  exact h

lemma successDocs_key_nodup (now : Nat)
    {inputs : List (String × Except String DocumentAnalysis)}
    (h : (inputs.map Prod.fst).Nodup) :
    ((successDocs (runEntries now inputs)).map (fun d => d.file_key)).Nodup :=
  (runEntries_key_nodup now h).sublist
    (successDocs_key_sublist (runEntries now inputs) runEntries_doc_key)

lemma successDocs_key_pairwise (now : Nat)
    {inputs : List (String × Except String DocumentAnalysis)}
    (h : (inputs.map Prod.fst).Nodup) :
    (successDocs (runEntries now inputs)).Pairwise
      (fun a b => a.file_key ≠ b.file_key) := by
  have := successDocs_key_nodup now h
  rw [List.Nodup, List.pairwise_map] at this
  exact this

lemma entries_key_pairwise (now : Nat)
    {inputs : List (String × Except String DocumentAnalysis)}
    (h : (inputs.map Prod.fst).Nodup) :
    (runEntries now inputs).Pairwise (fun a b => a.file_key ≠ b.file_key) := by
  have := runEntries_key_nodup now h
  rw [List.Nodup, List.pairwise_map] at this
  exact this

lemma buildPairs_endpoint_success {vecSim : List ℚ → List ℚ → ℚ} {now : Nat}
    {inputs : List (String × Except String DocumentAnalysis)} {p : SimilarityPair}
    (hp : p ∈ buildPairs vecSim (successDocs (runEntries now inputs))) :
    (∃ d ∈ successDocs (runEntries now inputs), p.file_1 = d.file_key) ∧
    (∃ d ∈ successDocs (runEntries now inputs), p.file_2 = d.file_key) := by
  obtain ⟨q, hq, hmk⟩ := mem_buildPairs.1 hp
  obtain ⟨h1, h2, -⟩ := mkPair_eq_some hmk
  obtain ⟨hq1, hq2⟩ := mem_allPairs hq
  exact ⟨⟨q.1, hq1, h1⟩, ⟨q.2, hq2, h2⟩⟩

/-! Numeric threshold lemmas. -/

lemma mkRat_eq_div (n : ℤ) (d : ℕ) : mkRat n d = (n : ℚ) / (d : ℚ) := by
  rw [Rat.mkRat_eq_divInt, Rat.divInt_eq_div]
  norm_num

lemma gateThreshold_eq : gateThreshold = 7 / 10 := by
  rw [gateThreshold, mkRat_eq_div]
  norm_num

lemma duplicateThreshold_eq : duplicateThreshold = 95 / 100 := by
  rw [duplicateThreshold, mkRat_eq_div]
  norm_num

/-! Example inputs used by the witnesses. -/

/-- Example analysis with a full embedding (spec scenario, first document). -/
def exDocA : DocumentAnalysis :=
  { file_key := "a.txt"
    document_type := "invoice"
    topics := ["billing", "q3"]
    key_terms := []
    full_embedding := some [1, 0]
    summary_embedding := none
    raw_text_tokens := ["pay"]
    upload_timestamp := 0
    dimension_inputs := [("dim_01", 80, "ok")] }

/-- Example analysis whose topics strictly extend exDocA's (Jaccard 2/3). -/
def exDocB : DocumentAnalysis :=
  { file_key := "b.txt"
    document_type := "invoice"
    topics := ["billing", "q3", "vendor"]
    key_terms := []
    full_embedding := some [1, 0]
    summary_embedding := none
    raw_text_tokens := ["pay"]
    upload_timestamp := 0
    dimension_inputs := [] }

/-- Example analysis with exDocA's exact topics (Jaccard 1). -/
def exDocB2 : DocumentAnalysis :=
  { file_key := "b.txt"
    document_type := "invoice"
    topics := ["billing", "q3"]
    key_terms := []
    full_embedding := some [1, 0]
    summary_embedding := none
    raw_text_tokens := ["pay"]
    upload_timestamp := 0
    dimension_inputs := [] }

/-- Example analysis of a different document type. -/
def exDocC : DocumentAnalysis :=
  { file_key := "c.txt"
    document_type := "report"
    topics := ["billing", "q3"]
    key_terms := []
    full_embedding := none
    summary_embedding := none
    raw_text_tokens := ["pay"]
    upload_timestamp := 0
    dimension_inputs := [] }

/-- Example analysis with no embedding and no tokens. -/
def exDocE1 : DocumentAnalysis :=
  { file_key := "e1.txt"
    document_type := "invoice"
    topics := ["billing", "q3"]
    key_terms := []
    full_embedding := none
    summary_embedding := none
    raw_text_tokens := []
    upload_timestamp := 0
    dimension_inputs := [] }

/-- Second example analysis with no embedding and no tokens. -/
def exDocE2 : DocumentAnalysis :=
  { file_key := "e2.txt"
    document_type := "invoice"
    topics := ["billing", "q3"]
    key_terms := []
    full_embedding := none
    summary_embedding := some [0, 1]
    raw_text_tokens := []
    upload_timestamp := 0
    dimension_inputs := [] }

/-- Constant similarity kernel used by the pipeline witnesses. -/
def vecSimOne : List ℚ → List ℚ → ℚ := fun _ _ => 1

/-- Example run inputs: two admissible documents and one failed analysis. -/
def exInputs : List (String × Except String DocumentAnalysis) :=
  [("a.txt", Except.ok exDocA), ("b.txt", Except.ok exDocB2),
   ("c.txt", Except.error "unreadable document")]

/-- Example run inputs in which every document failed. -/
def exFailInputs : List (String × Except String DocumentAnalysis) :=
  [("a.txt", Except.error "throttled"), ("b.txt", Except.error "timeout")]

/-! Claim theorems. -/

/-- C4: For every scored document, the QualityResult contains exactly 17
dimension entries each with a score in [0,100]; when `dimension_inputs` for a
dimension is missing, that dimension is still present with score 0 and
evidence "no evidence provided", never omitted from the output. -/
theorem c4_quality_result_shape (now : Nat) (d : DocumentAnalysis) :
    (scoreDocument now d).dimension_scores.length = 17 ∧
    (scoreDocument now d).dimension_scores.map Prod.fst = dimensionNames ∧
    (∀ e ∈ (scoreDocument now d).dimension_scores,
      0 ≤ e.2.score ∧ e.2.score ≤ 100) ∧
    (∀ name ∈ dimensionNames, (∀ x ∈ d.dimension_inputs, x.1 ≠ name) →
      (name, (⟨0, "no evidence provided"⟩ : DimensionScore)) ∈
        (scoreDocument now d).dimension_scores) := by
  refine ⟨?_, ?_, ?_, ?_⟩
  · rw [scoreDocument_dimension_scores, adjustTimeliness_length, scoreDimensions_length]
    rfl
  · rw [scoreDocument_dimension_scores, adjustTimeliness_names, scoreDimensions_names]
  · intro e he
    rw [scoreDocument_dimension_scores] at he
    exact ⟨Nat.zero_le _,
      adjustTimeliness_score_le _ _ (scoreDimensions_score_le _) e he⟩
  · intro name hmem hmiss
    rw [scoreDocument_dimension_scores]
    exact adjustTimeliness_missing _ _ _ (scoreDimensions_missing _ _ hmem hmiss)

/-- Witness for C4 at a concrete document: the `dim_02` input is absent, so
the scored output still carries that dimension with score 0 and the fixed
evidence string. -/
theorem c4_quality_result_shape_witness :
    ("dim_02" ∈ dimensionNames) ∧
    (∀ x ∈ exDocA.dimension_inputs, x.1 ≠ "dim_02") ∧
    ("dim_02", (⟨0, "no evidence provided"⟩ : DimensionScore)) ∈
      (scoreDocument 0 exDocA).dimension_scores :=
  ⟨by decide, by decide,
    (c4_quality_result_shape 0 exDocA).2.2.2 "dim_02" (by decide) (by decide)⟩

/-- C5: For every scored document, `overall_quality_score` equals the
arithmetic mean of its 17 dimension scores rounded to the nearest integer. -/
theorem c5_overall_is_rounded_mean (now : Nat) (d : DocumentAnalysis) :
    (scoreDocument now d).dimension_scores.length = 17 ∧
    ((scoreDocument now d).overall_quality_score : ℤ) =
      round ((sumScores (scoreDocument now d).dimension_scores : ℚ) / 17) := by
  constructor
  · rw [scoreDocument_dimension_scores, adjustTimeliness_length, scoreDimensions_length]
    rfl
  · have h := roundMean_eq_round (sumScores (scoreDocument now d).dimension_scores)
    rw [scoreDocument_overall]
    simpa [numDimensions] using h

/-- C6: For every scored document, `recommended_action` is determined from
`overall_quality_score` by the fixed buckets (>= 90 KEEP, 70-89 REVIEW,
50-69 QUARANTINE, below 50 DISCARD), and the buckets agree with the
frontend's score and action colour coding. -/
theorem c6_recommended_action_buckets (s : Nat) :
    (90 ≤ s → recommendedAction s = "KEEP") ∧
    (70 ≤ s ∧ s ≤ 89 → recommendedAction s = "REVIEW") ∧
    (50 ≤ s ∧ s ≤ 69 → recommendedAction s = "QUARANTINE") ∧
    (s < 50 → recommendedAction s = "DISCARD") ∧
    (∀ now d, (scoreDocument now d).recommended_action =
      recommendedAction (scoreDocument now d).overall_quality_score) ∧
    getActionColor (recommendedAction s) = getScoreColor s := by
  refine ⟨?_, ?_, ?_, ?_, fun now d => scoreDocument_action now d, ?_⟩
  · intro h
    simp [recommendedAction, h]
  · rintro ⟨h1, h2⟩
    have h3 : ¬ 90 ≤ s := by omega
    simp [recommendedAction, h1, h3]
  · rintro ⟨h1, h2⟩
    have h3 : ¬ 90 ≤ s := by omega
    have h4 : ¬ 70 ≤ s := by omega
    simp [recommendedAction, h1, h3, h4]
  · intro h
    have h3 : ¬ 90 ≤ s := by omega
    have h4 : ¬ 70 ≤ s := by omega
    have h5 : ¬ 50 ≤ s := by omega
    simp [recommendedAction, h3, h4, h5]
  · by_cases h90 : 90 ≤ s
    · simp [recommendedAction, getScoreColor, getActionColor, h90]
    · by_cases h70 : 70 ≤ s
      · simp [recommendedAction, getScoreColor, getActionColor, h90, h70]
      · by_cases h50 : 50 ≤ s
        · simp [recommendedAction, getScoreColor, getActionColor, h90, h70, h50]
        · simp [recommendedAction, getScoreColor, getActionColor, h90, h70, h50]

/-- Witness for C6 at the four concrete scores 95, 75, 55 and 30, one per
bucket. -/
theorem c6_recommended_action_buckets_witness :
    (90 ≤ 95 ∧ recommendedAction 95 = "KEEP") ∧
    (70 ≤ 75 ∧ 75 ≤ 89 ∧ recommendedAction 75 = "REVIEW") ∧
    (50 ≤ 55 ∧ 55 ≤ 69 ∧ recommendedAction 55 = "QUARANTINE") ∧
    (30 < 50 ∧ recommendedAction 30 = "DISCARD") :=
  ⟨⟨by decide, (c6_recommended_action_buckets 95).1 (by decide)⟩,
   ⟨by decide, by decide,
     (c6_recommended_action_buckets 75).2.1 ⟨by decide, by decide⟩⟩,
   ⟨by decide, by decide,
     (c6_recommended_action_buckets 55).2.2.1 ⟨by decide, by decide⟩⟩,
   ⟨by decide, (c6_recommended_action_buckets 30).2.2.2.1 (by decide)⟩⟩

/-- C2: The metadata similarity gate returns a failing value whenever the two
`document_type` labels differ (exact, case-sensitive match); otherwise it
returns the Jaccard similarity over each document's combined
topics-plus-key_terms set, with empty versus empty defined as 0, and the pair
is admitted to vector comparison iff the similarity is at least 0.7. -/
theorem c2_metadata_gate (d1 d2 : DocumentAnalysis) :
    (d1.document_type ≠ d2.document_type →
      metadataSimilarity d1 d2 = 0 ∧ gateAdmits d1 d2 = false) ∧
    (d1.document_type = d2.document_type →
      metadataSimilarity d1 d2 =
        ((combinedMetadataSet d1 ∩ combinedMetadataSet d2).card : ℚ) /
          ((combinedMetadataSet d1 ∪ combinedMetadataSet d2).card : ℚ)) ∧
    (combinedMetadataSet d1 = ∅ → combinedMetadataSet d2 = ∅ →
      metadataSimilarity d1 d2 = 0 ∧ gateAdmits d1 d2 = false) ∧
    (gateAdmits d1 d2 = true ↔ (7 : ℚ) / 10 ≤ metadataSimilarity d1 d2) := by
  have hfail : metadataSimilarity d1 d2 = 0 → gateAdmits d1 d2 = false := by
    intro hm
    simp only [gateAdmits, hm]
    decide
  refine ⟨?_, ?_, ?_, ?_⟩
  · intro h
    exact ⟨metadataSimilarity_of_type_ne d1 d2 h,
      hfail (metadataSimilarity_of_type_ne d1 d2 h)⟩
  · intro h
    rw [metadataSimilarity, if_pos h, jaccard_eq_div]
  · intro h1 h2
    have hm : metadataSimilarity d1 d2 = 0 := by
      rw [metadataSimilarity]
      split
      · rw [jaccard, h1, h2]
        decide
      · rfl
    exact ⟨hm, hfail hm⟩
  · rw [gateAdmits, ← gateThreshold_eq]
    exact decide_eq_true_iff

/-- Witness for C2: the closed gate at differing document types, and the two
spec scenarios - topics sets of Jaccard 2/3 close the gate while identical
sets admit. -/
theorem c2_metadata_gate_witness :
    (exDocA.document_type ≠ exDocC.document_type) ∧
    (metadataSimilarity exDocA exDocC = 0 ∧ gateAdmits exDocA exDocC = false) ∧
    (exDocA.document_type = exDocB.document_type) ∧
    metadataSimilarity exDocA exDocB = mkRat 2 3 ∧
    gateAdmits exDocA exDocB = false ∧
    metadataSimilarity exDocA exDocB2 = 1 ∧
    gateAdmits exDocA exDocB2 = true :=
  ⟨by decide, (c2_metadata_gate exDocA exDocC).1 (by decide), by decide,
   by decide, by decide, by decide, by decide⟩

lemma tier99_eq : mkRat 99 100 = (99 : ℚ) / 100 := by
  rw [mkRat_eq_div]
  norm_num

lemma tier97_eq : mkRat 97 100 = (97 : ℚ) / 100 := by
  rw [mkRat_eq_div]
  norm_num

/-- C7: For every admitted pair, the reported similarity is the cosine
`dot(u,v)/(norm u * norm v)` clamped to [0,1], and downstream tier
classification uses the bounds: below 0.95 similar-but-not-duplicate (still
reported), [0.95, 0.97) duplicate, [0.97, 0.99) very similar duplicate, and
at or above 0.99 near-identical duplicate; the frontend badge colours follow
the same bounds on the percent scale. -/
theorem c7_cosine_clamp_and_tiers :
    (∀ u v : List ℝ, 0 ≤ clampedCosine u v ∧ clampedCosine u v ≤ 1) ∧
    (∀ u v : List ℝ, 0 ≤ cosineSimilarity u v → cosineSimilarity u v ≤ 1 →
      clampedCosine u v = cosineSimilarity u v) ∧
    (∀ u v : List ℝ, clampedCosine u v =
      max 0 (min 1 (dot u v / (vnorm u * vnorm v)))) ∧
    (∀ s : ℚ,
      (s < 95 / 100 → classifyTier s = Tier.similar) ∧
      (95 / 100 ≤ s → s < 97 / 100 → classifyTier s = Tier.duplicate) ∧
      (97 / 100 ≤ s → s < 99 / 100 → classifyTier s = Tier.verySimilar) ∧
      (99 / 100 ≤ s → classifyTier s = Tier.nearIdentical)) ∧
    (∀ s : ℚ, 95 / 100 ≤ s → s < 97 / 100 →
      duplicateBadgeColor (100 * s) = "#f59e0b") ∧
    (∀ s : ℚ, 97 / 100 ≤ s → s < 99 / 100 →
      duplicateBadgeColor (100 * s) = "#ea580c") ∧
    (∀ s : ℚ, 99 / 100 ≤ s → duplicateBadgeColor (100 * s) = "#dc2626") ∧
    (∀ (vecSim : List ℚ → List ℚ → ℚ) (d1 d2 : DocumentAnalysis) p,
      mkPair vecSim d1 d2 = some p → 0 ≤ p.similarity ∧ p.similarity ≤ 1) := by
  refine ⟨?_, ?_, fun u v => rfl, ?_, ?_, ?_, ?_, ?_⟩
  · intro u v
    exact ⟨le_max_left 0 _, max_le zero_le_one (min_le_left 1 _)⟩
  · intro u v h0 h1
    rw [clampedCosine, min_eq_right h1, max_eq_right h0]
  · intro s
    refine ⟨?_, ?_, ?_, ?_⟩
    · intro h
      have h99 : ¬ mkRat 99 100 ≤ s := by rw [tier99_eq]; intro hc; linarith
      have h97 : ¬ mkRat 97 100 ≤ s := by rw [tier97_eq]; intro hc; linarith
      have h95 : ¬ duplicateThreshold ≤ s := by
        rw [duplicateThreshold_eq]; intro hc; linarith
      simp [classifyTier, h99, h97, h95]
    · intro hlo hhi
      have h99 : ¬ mkRat 99 100 ≤ s := by rw [tier99_eq]; intro hc; linarith
      have h97 : ¬ mkRat 97 100 ≤ s := by rw [tier97_eq]; intro hc; linarith
      have h95 : duplicateThreshold ≤ s := by rw [duplicateThreshold_eq]; linarith
      simp [classifyTier, h99, h97, h95]
    · intro hlo hhi
      have h99 : ¬ mkRat 99 100 ≤ s := by rw [tier99_eq]; intro hc; linarith
      have h97 : mkRat 97 100 ≤ s := by rw [tier97_eq]; linarith
      simp [classifyTier, h99, h97]
    · intro hlo
      have h99 : mkRat 99 100 ≤ s := by rw [tier99_eq]; linarith
      simp [classifyTier, h99]
  · intro s hlo hhi
    have h99 : ¬ (99 : ℚ) ≤ 100 * s := by intro hc; linarith
    have h97 : ¬ (97 : ℚ) ≤ 100 * s := by intro hc; linarith
    simp [duplicateBadgeColor, h99, h97]
  · intro s hlo hhi
    have h99 : ¬ (99 : ℚ) ≤ 100 * s := by intro hc; linarith
    have h97 : (97 : ℚ) ≤ 100 * s := by linarith
    simp [duplicateBadgeColor, h99, h97]
  · intro s hlo
    have h99 : (99 : ℚ) ≤ 100 * s := by linarith
    simp [duplicateBadgeColor, h99]
  · intro vecSim d1 d2 p hp
    obtain ⟨-, -, -, -, v1, v2, -, hsim⟩ := mkPair_eq_some hp
    rw [hsim, clamp01]
    exact ⟨le_max_left 0 _, max_le zero_le_one (min_le_left 1 _)⟩

/-- Witness for C7: a concrete cosine of 1 is preserved by the clamp, and a
concrete 0.96 similarity classifies as a duplicate with the matching badge
colour. -/
theorem c7_cosine_clamp_and_tiers_witness :
    (0 : ℝ) ≤ cosineSimilarity [1] [1] ∧ cosineSimilarity [1] [1] ≤ 1 ∧
    clampedCosine [1] [1] = cosineSimilarity [1] [1] ∧
    (95 : ℚ) / 100 ≤ 96 / 100 ∧ (96 : ℚ) / 100 < 97 / 100 ∧
    classifyTier (96 / 100) = Tier.duplicate ∧
    duplicateBadgeColor (100 * (96 / 100)) = "#f59e0b" := by
  have hcos : cosineSimilarity [(1 : ℝ)] [1] = 1 := by
    simp [cosineSimilarity, dot, vnorm, Real.sqrt_one]
  have h0 : (0 : ℝ) ≤ cosineSimilarity [1] [1] := by rw [hcos]; norm_num
  have h1 : cosineSimilarity [(1 : ℝ)] [1] ≤ 1 := by rw [hcos]
  refine ⟨h0, h1, ?_, by norm_num, by norm_num, ?_, ?_⟩
  · exact c7_cosine_clamp_and_tiers.2.1 [1] [1] h0 h1
  · exact (c7_cosine_clamp_and_tiers.2.2.2.1 (96 / 100)).2.1 (by norm_num) (by norm_num)
  · exact c7_cosine_clamp_and_tiers.2.2.2.2.1 (96 / 100) (by norm_num) (by norm_num)

/-- C8: For every document in a compared pair, the comparison vector is
`full_embedding` when present, else `summary_embedding` when present, else a
pair-specific bag-of-words vector built from `raw_text_tokens` over a
vocabulary shared by the two documents of that pair; and when both documents
of a pair have empty token sets, the pair is dropped from all outputs rather
than reported with similarity 0. -/
theorem c8_fallback_chain (d1 d2 : DocumentAnalysis) (vocab : List String) :
    (∀ v, d1.full_embedding = some v → resolveVector vocab d1 = v) ∧
    (∀ v, d1.full_embedding = none → d1.summary_embedding = some v →
      resolveVector vocab d1 = v) ∧
    (d1.full_embedding = none → d1.summary_embedding = none →
      resolveVector vocab d1 = bowVector vocab d1.raw_text_tokens) ∧
    (¬ (d1.raw_text_tokens = [] ∧ d2.raw_text_tokens = []) →
      resolveComparison d1 d2 =
        some (resolveVector (pairVocabulary d1 d2) d1,
              resolveVector (pairVocabulary d1 d2) d2)) ∧
    (d1.raw_text_tokens = [] → d2.raw_text_tokens = [] →
      resolveComparison d1 d2 = none ∧
      ∀ vecSim, mkPair vecSim d1 d2 = none) := by
  refine ⟨?_, ?_, ?_, ?_, ?_⟩
  · intro v hv
    rw [resolveVector, hv]
  · intro v hf hs
    rw [resolveVector, hf, hs]
  · intro hf hs
    rw [resolveVector, hf, hs]
  · intro h
    rw [resolveComparison, if_neg h]
  · intro h1 h2
    have hrc : resolveComparison d1 d2 = none := by
      rw [resolveComparison, if_pos ⟨h1, h2⟩]
    refine ⟨hrc, fun vecSim => ?_⟩
    simp [mkPair, hrc]

/-- Witness for C8: exDocA resolves to its full embedding, exDocE2 falls back
to its summary embedding, exDocC falls back to the bag-of-words vector, and
the token-free pair exDocE1/exDocE2 is dropped. -/
theorem c8_fallback_chain_witness :
    resolveVector ["pay"] exDocA = [1, 0] ∧
    (exDocE2.full_embedding = none ∧ exDocE2.summary_embedding = some [0, 1] ∧
      resolveVector ["pay"] exDocE2 = [0, 1]) ∧
    (exDocC.full_embedding = none ∧ exDocC.summary_embedding = none ∧
      resolveVector ["pay"] exDocC = [1]) ∧
    (exDocE1.raw_text_tokens = [] ∧ exDocE2.raw_text_tokens = [] ∧
      resolveComparison exDocE1 exDocE2 = none ∧
      mkPair vecSimOne exDocE1 exDocE2 = none) := by
  have h := c8_fallback_chain exDocE1 exDocE2 ["pay"]
  have hdrop := h.2.2.2.2 rfl rfl
  refine ⟨?_, ⟨rfl, rfl, ?_⟩, ⟨rfl, rfl, by decide⟩, rfl, rfl, hdrop.1, hdrop.2 vecSimOne⟩
  · exact (c8_fallback_chain exDocA exDocB ["pay"]).1 [1, 0] rfl
  · exact (c8_fallback_chain exDocE2 exDocE1 ["pay"]).2.1 [0, 1] rfl rfl

/-- C10: For every invocation of the quality-check run handler, if the
request throws or returns a response without a consolidated result, the
previously persisted consolidated result stored under the localStorage key
`qualityCheckResults_{id}` is left unchanged (only the in-memory display
state is cleared); a new value is written to that key only when the response
contains a `consolidated_json` object. -/
theorem c10_handle_scan_persistence (prev : ScanView) (resp : ScanOutcome) :
    (∀ msg, resp = ScanOutcome.thrown msg →
      (handleScan prev resp).storedResults = prev.storedResults ∧
      (handleScan prev resp).displayed = none) ∧
    (resp = ScanOutcome.ok [] →
      (handleScan prev resp).storedResults = prev.storedResults ∧
      (handleScan prev resp).displayed = none) ∧
    (∀ item rest, resp = ScanOutcome.ok (item :: rest) →
      item.consolidated_json = none →
      (handleScan prev resp).storedResults = prev.storedResults ∧
      (handleScan prev resp).displayed = none) ∧
    (∀ item rest c, resp = ScanOutcome.ok (item :: rest) →
      item.consolidated_json = some c →
      (handleScan prev resp).storedResults = some c ∧
      (handleScan prev resp).displayed = some c) ∧
    ((handleScan prev resp).storedResults ≠ prev.storedResults →
      ∃ item rest c, resp = ScanOutcome.ok (item :: rest) ∧
        item.consolidated_json = some c ∧
        (handleScan prev resp).storedResults = some c) := by
  refine ⟨?_, ?_, ?_, ?_, ?_⟩
  · intro msg h
    subst h
    exact ⟨rfl, rfl⟩
  · intro h
    subst h
    exact ⟨rfl, rfl⟩
  · intro item rest h hc
    subst h
    simp [handleScan, hc]
  · intro item rest c h hc
    subst h
    simp [handleScan, hc]
  · intro hch
    cases resp with
    | thrown msg => exact absurd rfl hch
    | ok results =>
      cases results with
      | nil => exact absurd rfl hch
      | cons item rest =>
        cases hc : item.consolidated_json with
        | none =>
          refine absurd ?_ hch
          simp [handleScan, hc]
        | some c =>
          refine ⟨item, rest, c, rfl, hc, ?_⟩
          simp [handleScan, hc]

/-- Example consolidated payload used by the C10 witness. -/
def exConsolidated : ConsolidatedResult := consolidate [] []

/-- Witness for C10: with a previously stored result, a thrown request leaves
the stored value untouched and clears only the display, while a response
carrying a consolidated object overwrites it. -/
theorem c10_handle_scan_persistence_witness :
    (handleScan ⟨some exConsolidated, some exConsolidated, none⟩
        (ScanOutcome.thrown "boom")).storedResults = some exConsolidated ∧
    (handleScan ⟨some exConsolidated, some exConsolidated, none⟩
        (ScanOutcome.thrown "boom")).displayed = none ∧
    (handleScan ⟨none, none, none⟩
        (ScanOutcome.ok [⟨some exConsolidated⟩])).storedResults =
      some exConsolidated := by
  have h1 := (c10_handle_scan_persistence
    ⟨some exConsolidated, some exConsolidated, none⟩
    (ScanOutcome.thrown "boom")).1 "boom" rfl
  have h2 := (c10_handle_scan_persistence ⟨none, none, none⟩
    (ScanOutcome.ok [⟨some exConsolidated⟩])).2.2.2.1
    ⟨some exConsolidated⟩ [] exConsolidated rfl rfl
  exact ⟨h1.1, h1.2, h2.1⟩

/-- C3: For every run, every pair in `similarity_pairs` has
`metadata_similarity >= 0.7`, the two endpoint documents have equal
`document_type` (a pair whose endpoints differ in document_type never
appears), each pair appears at most once, and `file_1` differs from
`file_2`. -/
theorem c3_similarity_pairs_invariants (vecSim : List ℚ → List ℚ → ℚ)
    (now : Nat) (inputs : List (String × Except String DocumentAnalysis))
    (hkeys : (inputs.map Prod.fst).Nodup) :
    (∀ p ∈ (runPipeline vecSim now inputs).similarity_pairs,
      (7 : ℚ) / 10 ≤ p.metadata_similarity ∧
      p.file_1 ≠ p.file_2 ∧
      ∃ d1 d2, d1 ∈ successDocs (runEntries now inputs) ∧
        d2 ∈ successDocs (runEntries now inputs) ∧
        p.file_1 = d1.file_key ∧ p.file_2 = d2.file_key ∧
        d1.document_type = d2.document_type) ∧
    (runPipeline vecSim now inputs).similarity_pairs.Pairwise
      (fun p q => ¬ sameEndpoints p q) := by
  have hdocs := successDocs_key_pairwise now hkeys
  constructor
  · intro p hp
    rw [runPipeline_eq] at hp
    rw [mem_consolidate_similarity] at hp
    obtain ⟨q, hq, hmk⟩ := mem_buildPairs.1 hp
    obtain ⟨h1, h2, hm, hgate, -⟩ := mkPair_eq_some hmk
    obtain ⟨hq1, hq2⟩ := mem_allPairs hq
    refine ⟨?_, ?_, q.1, q.2, hq1, hq2, h1, h2, ?_⟩
    · rw [← gateThreshold_eq]
      exact hgate
    · rw [h1, h2]
      exact allPairs_fst_ne_snd (fun d => d.file_key) hdocs q hq
    · exact type_eq_of_gate (hm ▸ hgate)
  · rw [runPipeline_eq]
    refine ((consolidate_similarity_perm _ _).pairwise_iff
      (fun h => not_sameEndpoints_symm h)).2 ?_
    exact buildPairs_pairwise vecSim hdocs

/-- Witness for C3 on a concrete run of three inputs (two admissible
documents, one failed analysis): the key list is duplicate-free, and the
canonical pair list is the single a/b pair with metadata similarity 1. -/
theorem c3_similarity_pairs_invariants_witness :
    ((exInputs.map Prod.fst).Nodup) ∧
    buildPairs vecSimOne (successDocs (runEntries 0 exInputs)) =
      [⟨"a.txt", "b.txt", 1, 1⟩] ∧
    (∀ p ∈ (runPipeline vecSimOne 0 exInputs).similarity_pairs,
      (7 : ℚ) / 10 ≤ p.metadata_similarity ∧
      p.file_1 ≠ p.file_2 ∧
      ∃ d1 d2, d1 ∈ successDocs (runEntries 0 exInputs) ∧
        d2 ∈ successDocs (runEntries 0 exInputs) ∧
        p.file_1 = d1.file_key ∧ p.file_2 = d2.file_key ∧
        d1.document_type = d2.document_type) :=
  ⟨by decide, by decide,
    (c3_similarity_pairs_invariants vecSimOne 0 exInputs (by decide)).1⟩

/-- C1: For every consolidated run result, every pair in `duplicate_pairs`
has similarity >= 0.95, `duplicate_pairs` is a subset of `similarity_pairs`
(compared by identifier set, here by membership), and `duplicate_pairs`
contains each unordered pair at most once even though both endpoint files
reference it in their per-file lists. -/
theorem c1_duplicate_pairs_invariants (vecSim : List ℚ → List ℚ → ℚ)
    (now : Nat) (inputs : List (String × Except String DocumentAnalysis))
    (hkeys : (inputs.map Prod.fst).Nodup) :
    (∀ p ∈ (runPipeline vecSim now inputs).duplicate_pairs,
      (95 : ℚ) / 100 ≤ p.similarity) ∧
    (∀ p ∈ (runPipeline vecSim now inputs).duplicate_pairs,
      p ∈ (runPipeline vecSim now inputs).similarity_pairs) ∧
    (runPipeline vecSim now inputs).duplicate_pairs.Pairwise
      (fun p q => ¬ sameEndpoints p q) ∧
    (∀ p ∈ (runPipeline vecSim now inputs).duplicate_pairs,
      ∀ f ∈ (runPipeline vecSim now inputs).files,
        touches p f.file.file_key = true → p ∈ f.potential_duplicates) := by
  have hdocs := successDocs_key_pairwise now hkeys
  refine ⟨?_, ?_, ?_, ?_⟩
  · intro p hp
    rw [runPipeline_eq, consolidate_duplicate_pairs, List.mem_filter] at hp
    have := of_decide_eq_true hp.2
    rw [← duplicateThreshold_eq]
    exact this
  · intro p hp
    rw [runPipeline_eq, consolidate_duplicate_pairs, List.mem_filter] at hp
    rw [runPipeline_eq, mem_consolidate_similarity]
    exact hp.1
  · rw [runPipeline_eq, consolidate_duplicate_pairs]
    exact List.Pairwise.filter _ (buildPairs_pairwise vecSim hdocs)
  · intro p hp f hf htouch
    rw [runPipeline_eq, consolidate_duplicate_pairs, List.mem_filter] at hp
    rw [runPipeline_eq, consolidate_files, List.mem_map] at hf
    obtain ⟨e, -, rfl⟩ := hf
    rw [List.mem_filter]
    refine ⟨hp.1, ?_⟩
    rw [Bool.and_eq_true]
    exact ⟨htouch, hp.2⟩

/-- Witness for C1 on the concrete three-input run: the keys are
duplicate-free and the run-level duplicate list is the single a/b pair with
similarity 1 (at the clamped kernel value). -/
theorem c1_duplicate_pairs_invariants_witness :
    ((exInputs.map Prod.fst).Nodup) ∧
    (runPipeline vecSimOne 0 exInputs).duplicate_pairs =
      [⟨"a.txt", "b.txt", 1, 1⟩] ∧
    (∀ p ∈ (runPipeline vecSimOne 0 exInputs).duplicate_pairs,
      (95 : ℚ) / 100 ≤ p.similarity) :=
  ⟨by decide, by decide,
    (c1_duplicate_pairs_invariants vecSimOne 0 exInputs (by decide)).1⟩

/-- C9: For every run, a document whose status is error still appears in the
consolidated `files` output carrying its error message, never appears as an
endpoint of any similarity pair, and the run as a whole completes even when
every document fails, in which case `files` contains only error entries and
both `duplicate_pairs` and `similarity_pairs` are empty. -/
theorem c9_error_document_handling (vecSim : List ℚ → List ℚ → ℚ)
    (now : Nat) (inputs : List (String × Except String DocumentAnalysis))
    (hkeys : (inputs.map Prod.fst).Nodup) :
    ((runPipeline vecSim now inputs).files.length = inputs.length) ∧
    (∀ key msg, (key, Except.error msg) ∈ inputs →
      ∃ f ∈ (runPipeline vecSim now inputs).files,
        f.file.file_key = key ∧ f.file.status = "error" ∧
        f.file.error = some msg) ∧
    (∀ f ∈ (runPipeline vecSim now inputs).files, f.file.status = "error" →
      ∀ p ∈ (runPipeline vecSim now inputs).similarity_pairs,
        p.file_1 ≠ f.file.file_key ∧ p.file_2 ≠ f.file.file_key) ∧
    ((∀ x ∈ inputs, ∃ msg, x.2 = Except.error msg) →
      (∀ f ∈ (runPipeline vecSim now inputs).files,
        f.file.status = "error" ∧ ∃ msg, f.file.error = some msg) ∧
      (runPipeline vecSim now inputs).similarity_pairs = [] ∧
      (runPipeline vecSim now inputs).duplicate_pairs = []) := by
  refine ⟨?_, ?_, ?_, ?_⟩
  · rw [runPipeline_eq, consolidate_files, List.length_map, runEntries,
      List.length_map]
  · intro key msg hmem
    rw [runPipeline_eq, consolidate_files]
    refine ⟨_, List.mem_map_of_mem _ (List.mem_map_of_mem
      (fun p => processDocument now p.1 p.2) hmem), rfl, rfl, rfl⟩
  · intro f hf herr p hp
    rw [runPipeline_eq, consolidate_files, List.mem_map] at hf
    obtain ⟨e, he, rfl⟩ := hf
    rw [runPipeline_eq, mem_consolidate_similarity] at hp
    have hend := buildPairs_endpoint_success hp
    have hker : ∀ d ∈ successDocs (runEntries now inputs),
        d.file_key ≠ e.file_key := by
      intro d hd
      obtain ⟨e', he', hdoc⟩ := mem_successDocs.1 hd
      have hsucc := runEntries_doc_status e' he' d hdoc
      have hdk : d.file_key = e'.file_key := runEntries_doc_key e' he' d hdoc
      intro hcon
      rcases eq_or_ne e' e with rfl | hne
      · rw [hsucc] at herr
        exact absurd herr (by decide)
      · have hpw := entries_key_pairwise now hkeys
        have hsymm : Symmetric (fun (a b : FileEntry) => a.file_key ≠ b.file_key) :=
          fun a b h h' => h h'.symm
        exact List.Pairwise.forall hsymm hpw he' he hne (hdk ▸ hcon)
    constructor
    · obtain ⟨d, hd, hkey⟩ := hend.1
      rw [hkey]
      exact hker d hd
    · obtain ⟨d, hd, hkey⟩ := hend.2
      rw [hkey]
      exact hker d hd
  · intro hall
    have hdocs : successDocs (runEntries now inputs) = [] := by
      rw [successDocs, List.filterMap_eq_nil_iff]
      intro e he
      simp only [runEntries, List.mem_map] at he
      obtain ⟨q, hq, rfl⟩ := he
      obtain ⟨msg, hmsg⟩ := hall q hq
      rw [hmsg]
      rfl
    refine ⟨?_, ?_, ?_⟩
    · intro f hf
      rw [runPipeline_eq, consolidate_files, List.mem_map] at hf
      obtain ⟨e, he, rfl⟩ := hf
      simp only [runEntries, List.mem_map] at he
      obtain ⟨q, hq, rfl⟩ := he
      obtain ⟨msg, hmsg⟩ := hall q hq
      rw [hmsg]
      exact ⟨rfl, msg, rfl⟩
    · rw [runPipeline_eq, hdocs]
      show sortBySimilarity (buildPairs vecSim []) = []
      rw [show buildPairs vecSim [] = [] from rfl]
      simp [sortBySimilarity]
    · rw [runPipeline_eq, hdocs, consolidate_duplicate_pairs]
      rw [show buildPairs vecSim [] = [] from rfl]
      rfl

/-- Witness for C9 on the concrete runs: the three-input run keeps the failed
document as an error entry, and the all-failed run yields empty pair lists
with only error entries. -/
theorem c9_error_document_handling_witness :
    ((exInputs.map Prod.fst).Nodup) ∧
    (∃ f ∈ (runPipeline vecSimOne 0 exInputs).files,
      f.file.file_key = "c.txt" ∧ f.file.status = "error" ∧
      f.file.error = some "unreadable document") ∧
    ((∀ x ∈ exFailInputs, ∃ msg, x.2 = Except.error msg) ∧
      (runPipeline vecSimOne 0 exFailInputs).duplicate_pairs = [] ∧
      (runPipeline vecSimOne 0 exFailInputs).files.length = 2) := by
  have hmem : ("c.txt", (Except.error "unreadable document" :
      Except String DocumentAnalysis)) ∈ exInputs :=
    List.mem_cons_of_mem _ (List.mem_cons_of_mem _ (List.mem_cons_self _ _))
  have hallfail : ∀ x ∈ exFailInputs, ∃ msg, x.2 = Except.error msg := by
    intro x hx
    simp only [exFailInputs, List.mem_cons, List.not_mem_nil, or_false] at hx
    rcases hx with rfl | rfl
    · exact ⟨"throttled", rfl⟩
    · exact ⟨"timeout", rfl⟩
  refine ⟨by decide, ?_, hallfail, ?_, by decide⟩
  · exact (c9_error_document_handling vecSimOne 0 exInputs (by decide)).2.1
      "c.txt" "unreadable document" hmem
  · exact ((c9_error_document_handling vecSimOne 0 exFailInputs (by decide)).2.2.2
      hallfail).2.2

end DataQuality
